import Mathlib

/-!
Verification of the core services of the speech-to-text desktop app, shallowly
embedded in Lean from the TypeScript sources:

* `GlobalHotkeys`   — `GlobalHotkeyService` (global hotkey registration).
* `StreamingSTT`    — `StreamingSTTService` (dual-mode cloud/local engine).
* `TextInjection`   — `TextInjectionService` (clipboard paste injection).
* `RecordingManager`— `GlobalRecordingManager` (session coordinator).

Effectful calls (Electron APIs, the WebSocket, the local Whisper engine,
the OS clipboard) are modelled by explicit state fields, oracle function
parameters, and action logs, so each method becomes a pure function from
a pre-state (plus oracles) to a result, a post-state and the list of
observable actions it performed.
-/

/-- JavaScript `String.prototype.trim`: strip leading and trailing
whitespace.  (Structurally recursive, unlike `String.trim`, so concrete
instances evaluate inside the kernel.) -/
def jsTrim (s : String) : String :=
  ⟨((s.data.dropWhile Char.isWhitespace).reverse.dropWhile
      Char.isWhitespace).reverse⟩

/-- JavaScript `String.prototype.includes`: `pat` occurs contiguously in `s`. -/
def strIncludes (s pat : String) : Bool :=
  (List.range (s.length + 1)).any (fun i => ((s.toList.drop i).take pat.length) == pat.toList)

namespace GlobalHotkeys

/-- Source method `GlobalHotkeyService.isValidAccelerator`: non-blank and contains at least
one modifier key name. -/
def isValidAccelerator (accelerator : String) : Bool :=
  if (jsTrim accelerator).length == 0 then false
  else
    strIncludes accelerator "Command" ||
    strIncludes accelerator "Control" ||
    strIncludes accelerator "Alt" ||
    strIncludes accelerator "Shift" ||
    strIncludes accelerator "Super" ||
    strIncludes accelerator "CommandOrControl"

/-- The mutable state of `GlobalHotkeyService` relevant to registration. -/
structure HotkeyState where
  currentHotkey : Option String
  deriving Repr, DecidableEq

/-- Source method `GlobalHotkeyService.unregister`. -/
def unregister (st : HotkeyState) : HotkeyState :=
  match st.currentHotkey with
  | some _ => { st with currentHotkey := none }
  | none => st

/-- Source method `GlobalHotkeyService.register`.  Here `osOk` is the boolean returned by
Electron `globalShortcut.register` (false on an OS-level conflict).
Returns the boolean result of the method and the post-state.  Note the source
unregisters the existing hotkey *before* validating the accelerator. -/
def register (st : HotkeyState) (osOk : Bool) (accelerator : String) :
    Bool × HotkeyState :=
  let st1 := if st.currentHotkey.isSome then unregister st else st
  if !(isValidAccelerator accelerator) then (false, st1)
  else if osOk then (true, { st1 with currentHotkey := some accelerator })
  else (false, st1)

end GlobalHotkeys

namespace StreamingSTT

/-- Source type `TranscriptionMode = "deepgram" | "whisper"` (the spec calls these
cloud mode and local mode). -/
inductive Mode
  | deepgram
  | whisper
  deriving Repr, DecidableEq

/-- A WebSocket `readyState`.  (`OPEN` is `opened` here: `open` is a Lean
keyword.) -/
inductive WsReadyState
  | connecting
  | opened
  | closing
  | closed
  deriving Repr, DecidableEq

/-- Audio samples.  Float32 samples are modelled as rationals: every value the
service produces (an int16 divided by 32768) is exactly representable. -/
abbrev Chunk := List ℚ

/-- The `Int16Array | Float32Array` argument of `sendAudio`. -/
inductive AudioData
  | int16 (samples : List ℤ)
  | float32 (samples : Chunk)
  deriving Repr, DecidableEq

/-- Int16→Float32 conversion in `bufferAudioForWhisper`:
`float32Data[i] = audioData[i] / 32768`. -/
def int16ToFloat (x : ℤ) : ℚ := (x : ℚ) / 32768

/-- JavaScript truncation toward zero (what storing into an `Int16Array`
does to an in-range number). -/
def jsTrunc (x : ℚ) : ℤ := if 0 ≤ x then ⌊x⌋ else ⌈x⌉

/-- Float32→Int16 conversion in `sendAudioToDeepgram`:
`int16Data[i] = Math.max(-32768, Math.min(32767, audioData[i] * 32768))`. -/
def floatToInt16 (x : ℚ) : ℤ := jsTrunc (max (-32768) (min 32767 (x * 32768)))

/-- View of the incoming audio as Float32 samples, as `bufferAudioForWhisper` takes it. -/
def toFloat32 : AudioData → Chunk
  | .int16 samples => samples.map int16ToFloat
  | .float32 samples => samples

/-- Wire buffer built by `sendAudioToDeepgram`: the audio as int16 samples. -/
def toInt16Buffer : AudioData → List ℤ
  | .int16 samples => samples
  | .float32 samples => samples.map floatToInt16

/-- One alternative inside a Deepgram message. -/
structure Alternative where
  transcript : String
  confidence : ℚ
  deriving Repr, DecidableEq

/-- The `channel` field of a Deepgram message. -/
structure Channel where
  alternatives : List Alternative
  deriving Repr, DecidableEq

/-- A parsed Deepgram result message (`interface DeepgramResponse`). -/
structure DeepgramResponse where
  channel : Channel
  is_final : Bool
  speech_final : Option Bool := none
  deriving Repr, DecidableEq

/-- The mutable fields of `StreamingSTTService`.  `ws` carries the
`readyState` of the socket when a socket object exists. -/
structure STTState where
  ws : Option WsReadyState
  apiKey : Option String
  fullTranscript : String
  isConnected : Bool
  mode : Mode
  audioChunks : List Chunk
  whisperProcessing : Bool
  deriving Repr, DecidableEq

/-- Field initializers of a freshly constructed `StreamingSTTService`. -/
def initialState : STTState :=
  { ws := none
    apiKey := none
    fullTranscript := ""
    isConnected := false
    mode := Mode.whisper
    audioChunks := []
    whisperProcessing := false }

/-- Observable actions of the service: socket traffic, renderer events
(`sendResult` / `sendError`), the not-open warning, and invocations of the
local Whisper engine (`transcribeAudio`). -/
inductive Action
  | wsSend (buffer : List ℤ)
  | wsClose
  | warnNotOpen
  | emitResult (text : String) (isFinal : Bool) (confidence : Option ℚ)
  | emitError (msg : String)
  | transcribeCall (samples : Chunk)
  deriving Repr, DecidableEq

/-- Source method `startWhisperMode`. -/
def startWhisperMode (st : STTState) : STTState :=
  { st with mode := Mode.whisper, audioChunks := [] }

/-- Outcome of a Deepgram WebSocket connection attempt (which of the three
resolving events of `startDeepgram` fires first). -/
inductive ConnectOutcome
  | opens
  | errorsBeforeOpen (msg : String)
  | timesOut
  deriving Repr, DecidableEq

/-- Source method `startDeepgram`: resolves `{success, error?}`.  On `open` the service
records the socket as open, sets `isConnected` and switches to cloud mode;
on timeout or a pre-open error it resolves a failure (the socket is closed
and its `close` handler nulls it out). -/
def startDeepgram (st : STTState) (outcome : ConnectOutcome) :
    (Bool × Option String) × STTState :=
  match st.apiKey with
  | none => ((false, some "No API key provided"), st)
  | some _ =>
    match outcome with
    | .opens =>
        ((true, none),
         { st with ws := some WsReadyState.opened, isConnected := true,
                   mode := Mode.deepgram })
    | .errorsBeforeOpen msg => ((false, some msg), { st with ws := none })
    | .timesOut => ((false, some "Connection timeout"), { st with ws := none })

/-- The `{success, mode}` value returned by `start` (the declared `error?`
field is never populated by the source). -/
structure StartResult where
  success : Bool
  mode : Mode
  deriving Repr, DecidableEq

/-- Source method `start(apiKey?)`: with a non-blank key, try Deepgram and fall back to
Whisper on failure; otherwise go straight to Whisper. -/
def start (st : STTState) (outcome : ConnectOutcome) (apiKey : Option String) :
    StartResult × STTState :=
  if 0 < (jsTrim (apiKey.getD "")).length then
    let st1 := { st with apiKey := apiKey }
    let res := startDeepgram st1 outcome
    if res.1.1 then ({ success := true, mode := Mode.deepgram }, res.2)
    else ({ success := true, mode := Mode.whisper }, startWhisperMode res.2)
  else
    ({ success := true, mode := Mode.whisper }, startWhisperMode st)

/-- Source method `handleDeepgramMessage`. -/
def handleDeepgramMessage (st : STTState) (response : DeepgramResponse) :
    STTState × List Action :=
  let transcript := ((response.channel.alternatives.head?).map
    Alternative.transcript).getD ""
  let confidence := (response.channel.alternatives.head?).map
    Alternative.confidence
  if transcript = "" then (st, [])
  else
    let st1 :=
      if response.is_final then
        { st with fullTranscript := st.fullTranscript ++ transcript ++ " " }
      else st
    let text :=
      if response.is_final then jsTrim st1.fullTranscript
      else st1.fullTranscript ++ transcript
    (st1, [Action.emitResult text response.is_final confidence])

/-- Source method `sendAudioToDeepgram`: drop with a warning unless the socket exists and
its `readyState` is `OPEN`; otherwise send the int16 wire buffer. -/
def sendAudioToDeepgram (st : STTState) (audioData : AudioData) :
    STTState × List Action :=
  match st.ws with
  | none => (st, [Action.warnNotOpen])
  | some rs =>
    if rs ≠ WsReadyState.opened then (st, [Action.warnNotOpen])
    else (st, [Action.wsSend (toInt16Buffer audioData)])

/-- Buffering threshold of `bufferAudioForWhisper`: `16000 * 5` samples (~5 s at 16 kHz). -/
def fiveSeconds : ℕ := 16000 * 5

/-- Total buffered samples: `audioChunks.reduce((sum, c) => sum + c.length, 0)`. -/
def totalSamples (chunks : List Chunk) : ℕ := (chunks.map List.length).sum

/-- The synchronous prefix of the async `processWhisperChunk`, up to the
`await transcribeAudio(...)`: bail out if a pass is in flight or the buffer
is empty, else mark a pass in flight, grab the combined buffer, clear the
buffer and hand the combined samples to the engine. -/
def processWhisperChunkStart (st : STTState) : STTState × List Action :=
  if st.whisperProcessing = true ∨ st.audioChunks = [] then (st, [])
  else
    ({ st with whisperProcessing := true, audioChunks := [] },
     [Action.transcribeCall st.audioChunks.flatten])

/-- The continuation of `processWhisperChunk` after `transcribeAudio`
resolves with `text`: append non-blank text to the transcript, emit the
result, and clear the in-flight flag (`finally`). -/
def processWhisperChunkFinish (st : STTState) (text : String) :
    STTState × List Action :=
  if text ≠ "" ∧ 0 < (jsTrim text).length then
    let newFull := st.fullTranscript ++ text ++ " "
    ({ st with fullTranscript := newFull, whisperProcessing := false },
     [Action.emitResult (jsTrim newFull) false none])
  else ({ st with whisperProcessing := false }, [])

/-- Source method `processWhisperChunk` run to completion (as `stop` does by awaiting it),
with the local engine modelled by the oracle `tr`. -/
def processWhisperChunkSync (tr : Chunk → String) (st : STTState) :
    STTState × List Action :=
  if st.whisperProcessing = true ∨ st.audioChunks = [] then (st, [])
  else
    let combined := st.audioChunks.flatten
    let text := tr combined
    if text ≠ "" ∧ 0 < (jsTrim text).length then
      let newFull := st.fullTranscript ++ text ++ " "
      ({ st with audioChunks := [], whisperProcessing := false,
                 fullTranscript := newFull },
       [Action.transcribeCall combined,
        Action.emitResult (jsTrim newFull) false none])
    else
      ({ st with audioChunks := [], whisperProcessing := false },
       [Action.transcribeCall combined])

/-- Source method `bufferAudioForWhisper`: always push the converted chunk; fire a
(non-awaited) `processWhisperChunk` once ≥ 5 s of audio is buffered and no
pass is in flight. -/
def bufferAudioForWhisper (st : STTState) (audioData : AudioData) :
    STTState × List Action :=
  let float32Data := toFloat32 audioData
  let st1 := { st with audioChunks := st.audioChunks ++ [float32Data] }
  if fiveSeconds ≤ totalSamples st1.audioChunks ∧ st1.whisperProcessing = false
  then processWhisperChunkStart st1
  else (st1, [])

/-- Source method `sendAudio`: dispatch on the current mode. -/
def sendAudio (st : STTState) (audioData : AudioData) : STTState × List Action :=
  match st.mode with
  | Mode.deepgram => sendAudioToDeepgram st audioData
  | Mode.whisper => bufferAudioForWhisper st audioData

/-- Source method `stop`: close the socket if open, flush remaining local-mode audio
through `processWhisperChunk`, return the trimmed transcript, and reset
`fullTranscript`, `audioChunks`, `isConnected` and `whisperProcessing`
(note: not `mode` and not `apiKey`). -/
def stop (tr : Chunk → String) (st : STTState) :
    String × STTState × List Action :=
  let closePair :
      STTState × List Action :=
    match st.ws with
    | some rs =>
        ({ st with ws := none },
         if rs = WsReadyState.opened then [Action.wsClose] else [])
    | none => (st, [])
  let procPair :=
    if closePair.1.mode = Mode.whisper ∧ 0 < closePair.1.audioChunks.length then
      processWhisperChunkSync tr closePair.1
    else (closePair.1, [])
  let result := jsTrim procPair.1.fullTranscript
  (result,
   { procPair.1 with fullTranscript := "", audioChunks := [],
                     isConnected := false, whisperProcessing := false },
   closePair.2 ++ procPair.2)

end StreamingSTT

namespace TextInjection

/-- Observable clipboard / OS actions of `TextInjectionService.injectText`. -/
inductive ClipAction
  | readClipboard
  | writeClipboard (s : String)
  | pasteKeystroke
  | delayMs (ms : ℕ)
  deriving Repr, DecidableEq

/-- Result of one `injectText` call: whether it returned normally or threw
(with the error message), the final clipboard contents, and the action log. -/
structure InjectOutcome where
  result : Except String Unit
  clipboard : String
  actions : List ClipAction
  deriving Repr

/-- Source method `TextInjectionService.injectText(text, preserveClipboard)`.

`isMac` is `process.platform === "darwin"`; `pasteOk` says whether the
`osascript` keystroke call succeeds (it rejects otherwise); `clipboard0` is
the clipboard content on entry.  The `finally` block restores the original
clipboard (after its 250 ms delay) whenever `preserveClipboard` was set and
the original was read — also on the error path, before the error
propagates.  The clipboard reads/writes themselves are modelled as
succeeding (their `catch` blocks only log). -/
def injectText (isMac pasteOk : Bool) (clipboard0 text : String)
    (preserveClipboard : Bool) : InjectOutcome :=
  if isMac = false then
    { result := Except.error "Text injection is currently only supported on macOS"
      clipboard := clipboard0
      actions := [] }
  else if text = "" ∨ (jsTrim text).length = 0 then
    { result := Except.error "Cannot inject empty text"
      clipboard := clipboard0
      actions := [] }
  else
    let originalClipboard : Option String :=
      if preserveClipboard then some clipboard0 else none
    let acts1 :=
      (if preserveClipboard then [ClipAction.readClipboard] else []) ++
      [ClipAction.writeClipboard text, ClipAction.delayMs 50]
    if pasteOk then
      let acts2 := acts1 ++ [ClipAction.pasteKeystroke, ClipAction.delayMs 150]
      match originalClipboard with
      | some c =>
          { result := Except.ok ()
            clipboard := c
            actions := acts2 ++ [ClipAction.delayMs 250, ClipAction.writeClipboard c] }
      | none => { result := Except.ok (), clipboard := text, actions := acts2 }
    else
      match originalClipboard with
      | some c =>
          { result := Except.error "osascript failed"
            clipboard := c
            actions := acts1 ++ [ClipAction.pasteKeystroke, ClipAction.delayMs 250,
                                 ClipAction.writeClipboard c] }
      | none =>
          { result := Except.error "osascript failed"
            clipboard := text
            actions := acts1 ++ [ClipAction.pasteKeystroke] }

/-- Source method `TextInjectionService.copyToClipboard(text)`: throws on blank text,
otherwise writes `text` to the clipboard.  Returns the call result and the
clipboard afterwards. -/
def copyToClipboard (clipboard0 text : String) : Except String Unit × String :=
  if text = "" ∨ (jsTrim text).length = 0 then
    (Except.error "Cannot copy empty text", clipboard0)
  else (Except.ok (), text)

end TextInjection

namespace RecordingManager

/-- The environment `GlobalRecordingManager.handleRecordingComplete` runs
in: the platform, whether the paste keystroke works, the clipboard
contents, and the `preserveClipboard` setting. -/
structure Env where
  isMac : Bool
  pasteOk : Bool
  clipboard : String
  preserveClipboard : Bool
  deriving Repr, DecidableEq

/-- Coordinator-level side effects of `handleRecordingComplete`. -/
inductive MgrAction
  | settingsRead
  | injectAttempt (text : String) (preserve : Bool)
  | clipboardCopy (text : String)
  deriving Repr, DecidableEq

/-- Source method `GlobalRecordingManager.handleRecordingComplete`:
blank transcripts return before any side effect; otherwise the
`preserveClipboard` setting is read and `injectText` attempted; if it
throws, the transcript is copied to the clipboard as a fallback; neither
error propagates (the method is total here). -/
def handleRecordingComplete (env : Env) (finalTranscript : String) :
    Env × List MgrAction :=
  if finalTranscript = "" ∨ (jsTrim finalTranscript).length = 0 then (env, [])
  else
    let preserve := env.preserveClipboard
    let inj := TextInjection.injectText env.isMac env.pasteOk env.clipboard
      finalTranscript preserve
    match inj.result with
    | Except.ok _ =>
        ({ env with clipboard := inj.clipboard },
         [MgrAction.settingsRead, MgrAction.injectAttempt finalTranscript preserve])
    | Except.error _ =>
        let copied := TextInjection.copyToClipboard inj.clipboard finalTranscript
        ({ env with clipboard := copied.2 },
         [MgrAction.settingsRead, MgrAction.injectAttempt finalTranscript preserve,
          MgrAction.clipboardCopy finalTranscript])

/-- The coordinator state relevant to `startRecording`. -/
structure MgrState where
  isActive : Bool
  deriving Repr, DecidableEq

/-- Does this step of the `try` block throw? -/
def throws {ε α : Type} : Except ε α → Bool
  | Except.error _ => true
  | Except.ok _ => false

/-- Source method `GlobalRecordingManager.startRecording`: a no-op when already active;
otherwise sets `isActive := true` and runs the three awaited steps
(`initializeStreamingService`, the settings read returning the stored API
key, `streamingService.start`), each modelled by an oracle for whether it
throws; the `catch` resets `isActive := false` and swallows the error. -/
def startRecording (st : MgrState) (initStep : Except String Unit)
    (settingsStep : Except String (Option String))
    (startStep : Except String StreamingSTT.StartResult) : MgrState :=
  if st.isActive then st
  else
    match initStep with
    | Except.error _ => { st with isActive := false }
    | Except.ok _ =>
      match settingsStep with
      | Except.error _ => { st with isActive := false }
      | Except.ok _ =>
        match startStep with
        | Except.error _ => { st with isActive := false }
        | Except.ok _ => { st with isActive := true }

end RecordingManager

open GlobalHotkeys StreamingSTT TextInjection RecordingManager

/-- Claim C1, as stated, is false: `register` unregisters the existing
hotkey before validating, so registering the modifier-less accelerator
"Space" over the registered hotkey "CommandOrControl+Shift+Space" returns
false but leaves no hotkey registered, instead of keeping the previous
one. -/
theorem C1_counterexample :
    isValidAccelerator "Space" = false ∧
    (register ⟨some "CommandOrControl+Shift+Space"⟩ true "Space").1 = false ∧
    (register ⟨some "CommandOrControl+Shift+Space"⟩ true "Space").2.currentHotkey
      = none := by
  decide

/-- Claim C1 (amended): for every accelerator lacking a modifier key,
`register` returns false, but because the existing hotkey is unregistered
before validation, afterwards no hotkey is registered at all
(`currentHotkey = none`) rather than the previous registration surviving. -/
theorem C1_register_invalid_rejected (st : HotkeyState) (osOk : Bool)
    (accelerator : String) (h : isValidAccelerator accelerator = false) :
    (register st osOk accelerator).1 = false ∧
    (register st osOk accelerator).2.currentHotkey = none := by
  obtain ⟨cur⟩ := st
  cases cur <;> simp [register, unregister, h]

/-- Witness for C1 at a concrete invalid accelerator and prior state. -/
theorem C1_register_invalid_rejected_witness :
    (register ⟨some "Alt+D"⟩ true "Q").1 = false ∧
    (register ⟨some "Alt+D"⟩ true "Q").2.currentHotkey = none :=
  C1_register_invalid_rejected ⟨some "Alt+D"⟩ true "Q" (by decide)

/-- Claim C2: `start` with a non-blank credential whose cloud connection
attempt times out or errors before opening returns
`{success := true, mode := whisper}` (the local mode), and with a blank or
absent credential it returns the same successful local-mode result
directly; in both cases the engine is left in local mode. -/
theorem C2_start_falls_back_to_local (st : STTState) (apiKey : Option String)
    (outcome : ConnectOutcome)
    (h : outcome ≠ ConnectOutcome.opens ∨ (jsTrim (apiKey.getD "")).length = 0) :
    (start st outcome apiKey).1 = { success := true, mode := Mode.whisper } ∧
    (start st outcome apiKey).2.mode = Mode.whisper := by
  by_cases hk : 0 < (jsTrim (apiKey.getD "")).length
  · have ho : outcome ≠ ConnectOutcome.opens := by
      rcases h with h | h
      · exact h
      · omega
    cases apiKey with
    | none => simp [jsTrim] at hk
    | some key =>
      cases outcome with
      | opens => exact absurd rfl ho
      | errorsBeforeOpen msg =>
          simp only [Option.getD_some] at hk
          simp [start, startDeepgram, startWhisperMode, hk]
      | timesOut =>
          simp only [Option.getD_some] at hk
          simp [start, startDeepgram, startWhisperMode, hk]
  · simp [start, startWhisperMode, hk]

/-- Witness for C2: a concrete timed-out cloud attempt with a non-blank
key falls back to local mode. -/
theorem C2_start_falls_back_to_local_witness :
    (start initialState ConnectOutcome.timesOut (some "dg-key")).1
      = { success := true, mode := Mode.whisper } ∧
    (start initialState ConnectOutcome.timesOut (some "dg-key")).2.mode
      = Mode.whisper :=
  C2_start_falls_back_to_local initialState (some "dg-key")
    ConnectOutcome.timesOut (Or.inl (by decide))

/-- First Deepgram message of the C3 scenario. -/
def c3Msg1 : DeepgramResponse := ⟨⟨[⟨"hello", 9/10⟩]⟩, true, none⟩

/-- Second Deepgram message of the C3 scenario. -/
def c3Msg2 : DeepgramResponse := ⟨⟨[⟨" world", 9/10⟩]⟩, true, none⟩

/-- Engine state of the C3 scenario: a fresh service started in cloud mode
that has received `c3Msg1` then `c3Msg2` and nothing else. -/
def c3State : STTState :=
  (handleDeepgramMessage
    (handleDeepgramMessage
      (start initialState ConnectOutcome.opens (some "dg-key")).2 c3Msg1).1
    c3Msg2).1

/-- Claim C3, as stated, is false: after the two final messages with
transcripts "hello" and " world", `stop` returns "hello  world" (two
spaces), not "hello world" — `handleDeepgramMessage` appends each final
transcript verbatim plus one space, and the trailing trim does not
collapse the interior double space produced by the leading space of
" world". -/
theorem C3_counterexample :
    (stop (fun _ => "") c3State).1 ≠ "hello world" := by
  decide

/-- Claim C3 (amended): in cloud mode, after exactly the two final
messages with transcripts "hello" and " world", `stop` returns
"hello  world" — the segments joined by appending each plus a single
space, trimmed only at the ends, so the leading space of " world"
produces a double interior space. -/
theorem C3_stop_joined_transcript :
    (stop (fun _ => "") c3State).1 = "hello  world" := by
  decide

/-- Claim C4: with `preserveClipboard = true`, a supported platform and a
non-blank text, `injectText` finishes (restoration delay included) with
the clipboard restored to the original content `C`, whether or not the
paste keystroke itself succeeded. -/
theorem C4_injectText_preserves_clipboard (pasteOk : Bool)
    (clipboard0 text : String) (h : (jsTrim text).length ≠ 0) :
    (injectText true pasteOk clipboard0 text true).clipboard = clipboard0 := by
  have htext : text ≠ "" := by
    intro he
    subst he
    simp [jsTrim] at h
  cases pasteOk <;> simp [injectText, htext, h]

/-- Witness for C4 at a concrete clipboard and text. -/
theorem C4_injectText_preserves_clipboard_witness :
    (injectText true true "original note" "dictated words" true).clipboard
      = "original note" :=
  C4_injectText_preserves_clipboard true "original note" "dictated words"
    (by decide)

/-- Claim C5: for a non-blank final transcript, when the injection attempt
throws (unsupported platform or a failing paste keystroke),
`handleRecordingComplete` falls back to `copyToClipboard` with the same
transcript — afterwards the clipboard holds the transcript and the
fallback copy is in the action log; the method itself returns normally
(it is a total function here: both errors are caught). -/
theorem C5_injection_failure_copies_to_clipboard (env : Env) (t : String)
    (ht : (jsTrim t).length ≠ 0)
    (hfail : env.isMac = false ∨ env.pasteOk = false) :
    (handleRecordingComplete env t).1.clipboard = t ∧
    MgrAction.clipboardCopy t ∈ (handleRecordingComplete env t).2 := by
  have htne : t ≠ "" := by
    intro he
    subst he
    simp [jsTrim] at ht
  obtain ⟨mac, pok, clip, pres⟩ := env
  rcases hfail with hmac | hpok
  · subst hmac
    simp [handleRecordingComplete, TextInjection.injectText,
      TextInjection.copyToClipboard, htne, ht]
  · subst hpok
    cases mac <;> cases pres <;>
      simp [handleRecordingComplete, TextInjection.injectText,
        TextInjection.copyToClipboard, htne, ht]

/-- Witness for C5: failed paste on macOS still leaves the transcript on
the clipboard via the fallback copy. -/
theorem C5_injection_failure_copies_to_clipboard_witness :
    (handleRecordingComplete ⟨true, false, "old clip", true⟩ "my words").1.clipboard
      = "my words" :=
  (C5_injection_failure_copies_to_clipboard ⟨true, false, "old clip", true⟩
    "my words" (by decide) (Or.inr rfl)).1

/-- Claim C8: in cloud mode, an audio frame arriving while the socket is
absent or not in the `OPEN` ready state leaves the service state entirely
unchanged (in particular nothing is queued or buffered) and produces only
the not-open warning. -/
theorem C8_cloud_drops_frames_when_not_open (st : STTState) (a : AudioData)
    (hm : st.mode = Mode.deepgram) (hw : st.ws ≠ some WsReadyState.opened) :
    sendAudio st a = (st, [Action.warnNotOpen]) := by
  unfold sendAudio
  rw [hm]
  unfold sendAudioToDeepgram
  cases hws : st.ws with
  | none => rfl
  | some rs =>
    have : rs ≠ WsReadyState.opened := by
      intro he
      subst he
      exact hw hws
    simp [this]

/-- A cloud-mode state whose socket has already closed, for the C8 witness. -/
def c8ClosedState : STTState :=
  { initialState with mode := Mode.deepgram, ws := some WsReadyState.closed }

/-- Witness for C8: a concrete frame sent in cloud mode over a closed
socket is dropped with a warning. -/
theorem C8_cloud_drops_frames_when_not_open_witness :
    sendAudio c8ClosedState (AudioData.int16 [5, -3])
      = (c8ClosedState, [Action.warnNotOpen]) :=
  C8_cloud_drops_frames_when_not_open c8ClosedState (AudioData.int16 [5, -3])
    rfl (by decide)

/-- Claim C9: a blank final transcript makes `handleRecordingComplete`
return before any side effect — the environment (clipboard included) is
unchanged and the action log (settings read, injection attempt, clipboard
copy) is empty. -/
theorem C9_blank_transcript_no_side_effects (env : Env) (t : String)
    (ht : (jsTrim t).length = 0) :
    handleRecordingComplete env t = (env, []) := by
  simp [handleRecordingComplete, ht]

/-- Witness for C9 on the whitespace transcript "   ". -/
theorem C9_blank_transcript_no_side_effects_witness :
    handleRecordingComplete ⟨true, true, "keep", true⟩ "   "
      = (⟨true, true, "keep", true⟩, []) :=
  C9_blank_transcript_no_side_effects ⟨true, true, "keep", true⟩ "   "
    (by decide)

/-- Claim C10: when `startRecording` begins from an inactive coordinator
and any of its awaited steps throws (streaming-service initialization,
the settings read, or the engine start), the catch block resets
`isActive` to false, and a subsequent `startRecording` whose steps all
succeed activates the coordinator again. -/
theorem C10_failed_start_resets_active (st : MgrState)
    (o1 : Except String Unit) (o2 : Except String (Option String))
    (o3 : Except String StreamingSTT.StartResult)
    (ha : st.isActive = false)
    (hfail : throws o1 = true ∨ throws o2 = true ∨ throws o3 = true) :
    (startRecording st o1 o2 o3).isActive = false ∧
    (∀ (o1' : Except String Unit) (o2' : Except String (Option String))
        (o3' : Except String StreamingSTT.StartResult),
      throws o1' = false → throws o2' = false → throws o3' = false →
      (startRecording (startRecording st o1 o2 o3) o1' o2' o3').isActive
        = true) := by
  obtain ⟨act⟩ := st
  subst ha
  constructor
  · cases o1 <;> cases o2 <;> cases o3 <;>
      simp_all [startRecording, throws]
  · intro o1' o2' o3' h1 h2 h3
    cases o1' <;> cases o2' <;> cases o3' <;>
      cases o1 <;> cases o2 <;> cases o3 <;>
        simp_all [startRecording, throws]

/-- Witness for C10: a failing settings read deactivates the coordinator. -/
theorem C10_failed_start_resets_active_witness :
    (startRecording ⟨false⟩ (Except.ok ()) (Except.error "settings unavailable")
      (Except.ok ⟨true, StreamingSTT.Mode.whisper⟩)).isActive = false :=
  (C10_failed_start_resets_active ⟨false⟩ (Except.ok ())
    (Except.error "settings unavailable")
    (Except.ok ⟨true, StreamingSTT.Mode.whisper⟩) rfl
    (Or.inr (Or.inl rfl))).1

/-- Local-mode state with one buffered chunk while an inference pass is
marked in flight, for the C6 counterexample. -/
def c6BusyState : STTState :=
  { initialState with audioChunks := [[1]], whisperProcessing := true }

/-- Claim C6, as stated, is false: in local mode with buffered audio but
an inference pass marked in flight, `stop` performs no transcription at
all (the flush is guarded by `whisperProcessing`), returns "" although
the buffered audio would transcribe to "flushed", and discards the
buffer. -/
theorem C6_counterexample :
    c6BusyState.mode = Mode.whisper ∧
    c6BusyState.audioChunks ≠ [] ∧
    (stop (fun _ => "flushed") c6BusyState).1 = "" ∧
    (stop (fun _ => "flushed") c6BusyState).2.2 = [] := by
  decide

/-- Claim C6 (amended): in local mode with no inference pass in flight,
`stop` flushes and transcribes the remaining buffered audio (one engine
call on the concatenated buffer), returns the trimmed accumulated
transcript, and resets the transcript, audio buffer, connection flag and
processing flag (the mode field is left unchanged, which in local mode
already equals the fresh value); when a pass is marked in flight the
remaining buffer is discarded untranscribed. -/
theorem C6_stop_flushes_when_idle (tr : Chunk → String) (st : STTState)
    (hm : st.mode = Mode.whisper) (hp : st.whisperProcessing = false) :
    (st.audioChunks ≠ [] →
      Action.transcribeCall st.audioChunks.flatten ∈ (stop tr st).2.2) ∧
    (stop tr st).1 =
      (if st.audioChunks ≠ [] ∧ tr st.audioChunks.flatten ≠ "" ∧
          0 < (jsTrim (tr st.audioChunks.flatten)).length
        then jsTrim (st.fullTranscript ++ tr st.audioChunks.flatten ++ " ")
        else jsTrim st.fullTranscript) ∧
    (stop tr st).2.1 =
      { st with ws := none, fullTranscript := "", audioChunks := [],
                isConnected := false, whisperProcessing := false } := by
  obtain ⟨ws, key, full, conn, mode, chunks, proc⟩ := st
  subst hm
  subst hp
  cases ws with
  | none =>
    cases chunks with
    | nil => simp [stop, processWhisperChunkSync]
    | cons c cs =>
      simp only [stop, processWhisperChunkSync]
      split_ifs <;> simp_all
  | some rs =>
    cases chunks with
    | nil => simp [stop, processWhisperChunkSync]
    | cons c cs =>
      simp only [stop, processWhisperChunkSync]
      split_ifs <;> simp_all

/-- Witness for C6 with one buffered chunk, an idle engine, and a stub
transcriber returning "flushed". -/
theorem C6_stop_flushes_when_idle_witness :
    (stop (fun _ => "flushed") { initialState with audioChunks := [[1]] }).1
      = "flushed" := by
  have h := (C6_stop_flushes_when_idle (fun _ => "flushed")
    { initialState with audioChunks := [[1]] } rfl rfl).2.1
  simpa using h

/-- Claim C7: in local mode, `bufferAudioForWhisper` starts an inference
pass exactly when the buffer (incoming chunk included) has reached 5
seconds of 16 kHz audio (80000 samples) and no pass is in flight;
starting a pass marks it in flight (so `processWhisperChunkStart`
refuses to start another until the flag clears); and audio arriving
while a pass is in flight is appended to the buffer, never dropped. -/
theorem C7_local_buffering_no_overlap (st : STTState) (a : AudioData) :
    (st.whisperProcessing = true →
      bufferAudioForWhisper st a =
        ({ st with audioChunks := st.audioChunks ++ [toFloat32 a] }, []) ∧
      processWhisperChunkStart st = (st, [])) ∧
    ((fiveSeconds ≤ totalSamples (st.audioChunks ++ [toFloat32 a]) ∧
        st.whisperProcessing = false) →
      bufferAudioForWhisper st a =
        ({ st with audioChunks := [], whisperProcessing := true },
         [Action.transcribeCall (st.audioChunks ++ [toFloat32 a]).flatten])) ∧
    (¬ (fiveSeconds ≤ totalSamples (st.audioChunks ++ [toFloat32 a]) ∧
        st.whisperProcessing = false) →
      bufferAudioForWhisper st a =
        ({ st with audioChunks := st.audioChunks ++ [toFloat32 a] }, [])) := by
  obtain ⟨ws, key, full, conn, mode, chunks, proc⟩ := st
  refine ⟨?_, ?_, ?_⟩
  · intro hp
    subst hp
    constructor
    · simp [bufferAudioForWhisper]
    · simp [processWhisperChunkStart]
  · rintro ⟨hthr, hp⟩
    subst hp
    simp [bufferAudioForWhisper, processWhisperChunkStart, hthr]
  · intro hneg
    cases proc with
    | false =>
      have hthr : ¬ fiveSeconds ≤
          totalSamples (chunks ++ [toFloat32 a]) := by
        intro hle
        exact hneg ⟨hle, rfl⟩
      simp [bufferAudioForWhisper, hthr]
    | true => simp [bufferAudioForWhisper]

/-- Local-mode state with a pass in flight, for the C7 witness. -/
def c7BusyState : STTState :=
  { initialState with whisperProcessing := true }

/-- Witness for C7: a chunk arriving while a pass is in flight is
buffered, not dropped, and no new pass starts. -/
theorem C7_local_buffering_no_overlap_witness :
    bufferAudioForWhisper c7BusyState (AudioData.float32 [0]) =
      ({ c7BusyState with audioChunks := [[0]] }, []) :=
  ((C7_local_buffering_no_overlap c7BusyState (AudioData.float32 [0])).1
    rfl).1
